import Mathlib

/-!
Verification of the music-tutor desktop backend
(`src/client/src-tauri/src/lib.rs`).

The backend is thin I/O glue: it scans a directory for song folders
containing an `analysis.json` manifest, parses the manifest into a typed
structure (`SongAnalysis`), resolves stem file paths, and invokes an
external audio converter as a subprocess.

Modelling conventions:
* The JSON data model of `serde_json` is embedded as the inductive `Json`
  (a tree of values).  JSON numbers are modelled as `Rat`: the Rust code
  only carries `f64` values from parse to re-serialization, it never
  computes with them, so an exact numeric carrier is faithful for every
  dataflow the claims mention.
* `HashMap<String, T>` values are embedded as their entry lists
  `List (String × T)`; a hash map's entry list has pairwise distinct keys,
  so `List.length` coincides with the number of keys (`HashMap::len`).
* `i32` is modelled as `Int` (the values are only carried, never computed
  with, so the 32-bit range plays no role in any claim).
* The filesystem and the subprocess runner are explicit parameters
  (`Fs`, and a `run` function), so the Tauri commands become pure
  functions of the world they touch, mirroring the Rust control flow
  line by line.
* Rust `Path` operations (`join`, `parent`, `is_absolute`) are embedded
  as string functions with Unix path semantics, matching the behaviour
  of `std::path` on the platform the application targets.
-/

namespace MusicTutor

/-- The `serde_json` value tree.  Objects keep their entry order; `serde`
serialization of a struct emits each field exactly once, in declaration
order, so an entry list is a faithful carrier. -/
inductive Json where
  | null : Json
  | bool : Bool → Json
  | num : Rat → Json
  | str : String → Json
  | arr : List Json → Json
  | obj : List (String × Json) → Json

/-- Stem information from `analysis.json` (Rust struct `StemInfo`,
`#[serde(rename_all = "camelCase")]`). -/
structure StemInfo where
  name : String
  paths : List (String × String)
  has_notes : Bool
  peak_db : Rat
deriving DecidableEq

/-- Beat event from `analysis.json` (Rust struct `BeatEvent`; the field
`beat_type` is serialized under the wire name `type`). -/
structure BeatEvent where
  time : Rat
  beat_type : String
  beat_in_measure : Option Int
deriving DecidableEq

/-- Song analysis data (Rust struct `SongAnalysis`). -/
structure SongAnalysis where
  title : Option String
  artist : Option String
  album : Option String
  original_duration : Rat
  sample_rate : Int
  tempo_bpm : Option Rat
  time_signature : Option (Int × Int)
  stems : List (String × StemInfo)
  beats : List BeatEvent
  source_file : String
  processing_date : String
  converter_version : String
deriving DecidableEq

/-- Summary info for the song browser (Rust struct `SongSummary`). -/
structure SongSummary where
  path : String
  title : Option String
  artist : Option String
  duration : Rat
  stem_count : Nat
deriving DecidableEq

/-- Field lookup in a JSON object's entry list (first match, as in
`serde_json::Value` object access). -/
def jget : List (String × Json) → String → Option Json
  | [], _ => none
  | (k, v) :: rest, key => if k = key then some v else jget rest key

/-- Decode a JSON string (serde `String` deserializer). -/
def decodeStr : Json → Option String
  | Json.str s => some s
  | _ => none

/-- Decode a JSON number as `f64` (serde `f64` deserializer). -/
def decodeRat : Json → Option Rat
  | Json.num q => some q
  | _ => none

/-- Decode a JSON boolean (serde `bool` deserializer). -/
def decodeBool : Json → Option Bool
  | Json.bool b => some b
  | _ => none

/-- Decode a JSON number as an integer (serde `i32` deserializer: the
number must be integral). -/
def decodeInt : Json → Option Int
  | Json.num q => if q.den = 1 then some q.num else none
  | _ => none

/-- Decode every element of a JSON array (serde `Vec<T>` deserializer). -/
def decodeList (dec : Json → Option α) : List Json → Option (List α)
  | [] => some []
  | j :: js =>
    match dec j, decodeList dec js with
    | some x, some xs => some (x :: xs)
    | _, _ => none

/-- Decode a JSON array (serde `Vec<T>` deserializer). -/
def decodeArr (dec : Json → Option α) : Json → Option (List α)
  | Json.arr js => decodeList dec js
  | _ => none

/-- Decode every entry of a JSON object (serde `HashMap<String, T>`
deserializer, acting on the entry list). -/
def decodeEntries (dec : Json → Option α) : List (String × Json) → Option (List (String × α))
  | [] => some []
  | (k, j) :: rest =>
    match dec j, decodeEntries dec rest with
    | some v, some vs => some ((k, v) :: vs)
    | _, _ => none

/-- Decode a JSON object to a string-keyed map (serde
`HashMap<String, T>` deserializer). -/
def decodeObj (dec : Json → Option α) : Json → Option (List (String × α))
  | Json.obj kvs => decodeEntries dec kvs
  | _ => none

/-- Decode a two-element JSON array as a pair (serde `(i32, i32)`
deserializer: exactly two elements). -/
def decodePairII : Json → Option (Int × Int)
  | Json.arr [x, y] =>
    match decodeInt x, decodeInt y with
    | some a, some b => some (a, b)
    | _, _ => none
  | _ => none

/-- Decode an optional field (serde `Option<T>` deserializer on a derived
struct field: an absent field and an explicit `null` both give `None`;
a present non-null value must decode). -/
def decodeOpt (dec : Json → Option α) : Option Json → Option (Option α)
  | none => some none
  | some Json.null => some none
  | some j => (dec j).map some

/-- Encode an `i32` (serde `i32` serializer). -/
def encInt (n : Int) : Json := Json.num (n : Rat)

/-- Encode an optional value (serde `Option<T>` serializer: `None`
serializes as `null`; no `skip_serializing_if` attribute is present in
the Rust source). -/
def encOpt (enc : α → Json) : Option α → Json
  | none => Json.null
  | some x => enc x

/-- Encode an `(i32, i32)` tuple (serde tuple serializer: a two-element
array). -/
def encPairII (p : Int × Int) : Json := Json.arr [encInt p.1, encInt p.2]

/-- Serialize a `StemInfo` (derived serde `Serialize`, camelCase keys,
fields in declaration order). -/
def StemInfo.toJson (s : StemInfo) : Json :=
  Json.obj
    [("name", Json.str s.name),
     ("paths", Json.obj (s.paths.map (fun kv => (kv.1, Json.str kv.2)))),
     ("hasNotes", Json.bool s.has_notes),
     ("peakDb", Json.num s.peak_db)]

/-- Deserialize a `StemInfo` (derived serde `Deserialize`, camelCase
keys; every field is required). -/
def StemInfo.fromJson : Json → Option StemInfo
  | Json.obj kvs =>
    match (jget kvs "name").bind decodeStr,
          (jget kvs "paths").bind (decodeObj decodeStr),
          (jget kvs "hasNotes").bind decodeBool,
          (jget kvs "peakDb").bind decodeRat with
    | some n, some ps, some hn, some pk => some (StemInfo.mk n ps hn pk)
    | _, _, _, _ => none
  | _ => none

/-- Serialize a `BeatEvent` (`beat_type` is emitted under the wire name
`type`). -/
def BeatEvent.toJson (b : BeatEvent) : Json :=
  Json.obj
    [("time", Json.num b.time),
     ("type", Json.str b.beat_type),
     ("beatInMeasure", encOpt encInt b.beat_in_measure)]

/-- Deserialize a `BeatEvent` (`time` and `type` required,
`beatInMeasure` optional). -/
def BeatEvent.fromJson : Json → Option BeatEvent
  | Json.obj kvs =>
    match (jget kvs "time").bind decodeRat,
          (jget kvs "type").bind decodeStr,
          decodeOpt decodeInt (jget kvs "beatInMeasure") with
    | some t, some ty, some bim => some (BeatEvent.mk t ty bim)
    | _, _, _ => none
  | _ => none

/-- Serialize a `SongAnalysis` (derived serde `Serialize`, camelCase
keys, fields in declaration order). -/
def SongAnalysis.toJson (a : SongAnalysis) : Json :=
  Json.obj
    [("title", encOpt Json.str a.title),
     ("artist", encOpt Json.str a.artist),
     ("album", encOpt Json.str a.album),
     ("originalDuration", Json.num a.original_duration),
     ("sampleRate", encInt a.sample_rate),
     ("tempoBpm", encOpt Json.num a.tempo_bpm),
     ("timeSignature", encOpt encPairII a.time_signature),
     ("stems", Json.obj (a.stems.map (fun kv => (kv.1, StemInfo.toJson kv.2)))),
     ("beats", Json.arr (a.beats.map BeatEvent.toJson)),
     ("sourceFile", Json.str a.source_file),
     ("processingDate", Json.str a.processing_date),
     ("converterVersion", Json.str a.converter_version)]

/-- Deserialize a `SongAnalysis` (derived serde `Deserialize`: `title`,
`artist`, `album`, `tempoBpm`, `timeSignature` optional, the rest
required). -/
def SongAnalysis.fromJson : Json → Option SongAnalysis
  | Json.obj kvs =>
    match decodeOpt decodeStr (jget kvs "title"),
          decodeOpt decodeStr (jget kvs "artist"),
          decodeOpt decodeStr (jget kvs "album"),
          (jget kvs "originalDuration").bind decodeRat,
          (jget kvs "sampleRate").bind decodeInt,
          decodeOpt decodeRat (jget kvs "tempoBpm"),
          decodeOpt decodePairII (jget kvs "timeSignature"),
          (jget kvs "stems").bind (decodeObj StemInfo.fromJson),
          (jget kvs "beats").bind (decodeArr BeatEvent.fromJson),
          (jget kvs "sourceFile").bind decodeStr,
          (jget kvs "processingDate").bind decodeStr,
          (jget kvs "converterVersion").bind decodeStr with
    | some t, some ar, some al, some od, some sr, some tb, some ts,
      some st, some be, some sf, some pd, some cv =>
        some (SongAnalysis.mk t ar al od sr tb ts st be sf pd cv)
    | _, _, _, _, _, _, _, _, _, _, _, _ => none
  | _ => none

/-- `Path::is_absolute` on Unix: the path has a root. -/
def pathIsAbsolute (p : String) : Bool :=
  match p.toList with
  | '/' :: _ => true
  | _ => false

/-- Whether a path string ends in a `/` separator. -/
def endsWithSlash (p : String) : Bool :=
  match p.toList.reverse with
  | '/' :: _ => true
  | _ => false

/-- `Path::join` on Unix: an absolute right operand replaces the base;
otherwise the right operand is pushed after a separator. -/
def pathJoin (a b : String) : String :=
  if pathIsAbsolute b then b
  else if a = "" then b
  else if endsWithSlash a then a ++ b
  else a ++ "/" ++ b

/-- Drop trailing `/` characters from a path's character list. -/
def dropTrailingSlashes (l : List Char) : List Char :=
  (l.reverse.dropWhile (fun c => c = '/')).reverse

/-- `Path::parent` on Unix, on character lists: strip the final
component; `none` for an empty path and for the root `/`; a relative
single-component path has parent `""`; stripping the final component of
an absolute two-component path leaves `/`. -/
def parentChars (l : List Char) : Option (List Char) :=
  let t := dropTrailingSlashes l
  if t = [] then none
  else
    let withoutLast := (t.reverse.dropWhile (fun c => c ≠ '/')).reverse
    if withoutLast = [] then some []
    else
      let t2 := dropTrailingSlashes withoutLast
      if t2 = [] then some ['/'] else some t2

/-- `Path::parent` on Unix path strings. -/
def pathParent (p : String) : Option String :=
  (parentChars p.toList).map List.asString

/-- The world the catalog scanner touches: path existence
(`Path::exists`), directory listing (`fs::read_dir` — the outer `Except`
is failure to open the directory, the per-entry `Except` mirrors the
fallible `ReadDir` iterator, an `ok` entry carrying `entry.path()`), and
file reading (`fs::read_to_string`). -/
structure Fs where
  pathExists : String → Bool
  readDir : String → Except String (List (Except String String))
  readToString : String → Except String String

/-- The loop body of `list_songs` (`lib.rs` lines 66–84): iterate the
`ReadDir` entries, return early with `Err` when the iterator yields an
error (`entry.map_err(|e| e.to_string())?`), and for each entry whose
`analysis.json` exists, readable and parseable, push a `SongSummary`;
read and parse failures are swallowed by the `if let Ok` chains.
`from_str` stands for `serde_json::from_str::<SongAnalysis>`. -/
def listLoop (fs : Fs) (from_str : String → Option SongAnalysis) :
    List (Except String String) → List SongSummary → Except String (List SongSummary)
  | [], songs => Except.ok songs
  | Except.error e :: _, _ => Except.error e
  | Except.ok song_path :: rest, songs =>
    let analysis_path := pathJoin song_path "analysis.json"
    if fs.pathExists analysis_path then
      match fs.readToString analysis_path with
      | Except.ok content =>
        match from_str content with
        | some analysis =>
          listLoop fs from_str rest
            (songs ++ [SongSummary.mk song_path analysis.title analysis.artist
              analysis.original_duration analysis.stems.length])
        | none => listLoop fs from_str rest songs
      | Except.error _ => listLoop fs from_str rest songs
    else
      listLoop fs from_str rest songs

/-- `list_songs` (`lib.rs` lines 57–87): list songs in a directory that
contain `analysis.json`.  A non-existent path returns `Ok(vec![])`;
`fs::read_dir` failure propagates via `?`; then the entry loop runs. -/
def list_songs (fs : Fs) (from_str : String → Option SongAnalysis) (dir : String) :
    Except String (List SongSummary) :=
  if fs.pathExists dir then
    match fs.readDir dir with
    | Except.error e => Except.error e
    | Except.ok entries => listLoop fs from_str entries []
  else
    Except.ok []

/-- `get_stem_path` (`lib.rs` lines 99–106): join the song directory
with the relative path and return the result only if it exists on the
live filesystem, else an error naming the resolved path. -/
def get_stem_path (fs : Fs) (song_dir relative_path : String) : Except String String :=
  let stem_path := pathJoin song_dir relative_path
  if fs.pathExists stem_path then
    Except.ok stem_path
  else
    Except.error ("Stem file not found: " ++ stem_path)

/-- Captured output of a finished child process (`std::process::Output`:
exit status, stdout bytes, stderr bytes). -/
structure ProcessOutput where
  success : Bool
  stdout : String
  stderr : String

/-- The argument vector built by `process_song` (`lib.rs` lines
118–129): the fixed prefix, then `--drum-sep` pushed only when
`separate_drums` is set. -/
def processArgs (audio_file output_dir : String) (separate_drums : Bool) : List String :=
  ["run", "music-tutor", "convert", audio_file, "-o", output_dir] ++
    (if separate_drums then ["--drum-sep"] else [])

/-- The working directory computed by `process_song` (`lib.rs` lines
112–116): `output_dir`'s parent's parent, with `.` (the current
directory) as the fallback of `unwrap_or`. -/
def projectRoot (output_dir : String) : String :=
  ((pathParent output_dir).bind pathParent).getD "."

/-- `process_song` (`lib.rs` lines 110–148).  `run prog args cwd` stands
for `Command::new(prog).args(args).current_dir(cwd).output()`: its
`error` case is failure to start the process, its `ok` case the finished
process's captured output.  Exit success returns `output_dir` unchanged;
exit failure returns the diagnostic string built from the trimmed stdout
and stderr. -/
def process_song (run : String → List String → String → Except String ProcessOutput)
    (audio_file output_dir : String) (separate_drums : Bool) : Except String String :=
  let project_root := projectRoot output_dir
  let args := processArgs audio_file output_dir separate_drums
  match run "uv" args project_root with
  | Except.error e => Except.error ("Failed to start process: " ++ e)
  | Except.ok output =>
    if output.success then
      Except.ok output_dir
    else
      Except.error ("Processing failed:\n" ++ output.stdout.trim ++ "\n" ++ output.stderr.trim)

/-! ### Concrete fixtures used by witnesses and counterexamples -/

/-- A concrete stem record. -/
def sampleStem : StemInfo :=
  StemInfo.mk "vocals" [("wav", "stems/vocals.wav")] true (-3)

/-- A concrete parsed manifest with a mix of present and absent optional
fields. -/
def sampleAnalysis : SongAnalysis :=
  SongAnalysis.mk (some "Song") none none 180 44100 (some 120) (some (4, 4))
    [("vocals", sampleStem)]
    [BeatEvent.mk 0 "downbeat" (some 1), BeatEvent.mk 1 "beat" none]
    "song.mp3" "2025-01-01T00:00:00Z" "1.0.0"

/-- A concrete stand-in for `serde_json::from_str::<SongAnalysis>`: one
recognized manifest text, everything else a parse failure. -/
def parseFixture : String → Option SongAnalysis :=
  fun s => if s = "good-manifest" then some sampleAnalysis else none

/-- A root directory with two song folders: `good` has a parseable
manifest, `bad` has a manifest file whose content does not parse. -/
def fsTwoSongs : Fs :=
  Fs.mk
    (fun p =>
      p == "/music" || p == "/music/good" || p == "/music/good/analysis.json" ||
        p == "/music/bad" || p == "/music/bad/analysis.json")
    (fun d =>
      if d = "/music" then Except.ok [Except.ok "/music/good", Except.ok "/music/bad"]
      else Except.error "no such directory")
    (fun p =>
      if p = "/music/good/analysis.json" then Except.ok "good-manifest"
      else if p = "/music/bad/analysis.json" then Except.ok "bad-manifest"
      else Except.error "unreadable")

/-- An existing root directory that cannot be listed at all. -/
def fsRootErr : Fs :=
  Fs.mk (fun _ => true) (fun _ => Except.error "permission denied")
    (fun _ => Except.error "unreadable")

/-- An existing root directory whose listing opens fine but whose entry
iterator yields an error. -/
def fsEntryErr : Fs :=
  Fs.mk (fun _ => true) (fun _ => Except.ok [Except.error "interrupted"])
    (fun _ => Except.error "unreadable")

/-- A filesystem on which no path exists. -/
def fsAbsent : Fs :=
  Fs.mk (fun _ => false) (fun _ => Except.error "no such directory")
    (fun _ => Except.error "unreadable")

/-- A concrete manifest document with every optional field absent. -/
def sampleManifest : Json :=
  Json.obj
    [("originalDuration", Json.num 200),
     ("sampleRate", Json.num 44100),
     ("stems", Json.obj []),
     ("beats", Json.arr []),
     ("sourceFile", Json.str "x.mp3"),
     ("processingDate", Json.str "2025-02-03T04:05:06Z"),
     ("converterVersion", Json.str "1.0.0")]

/-- The parse of `sampleManifest`: every optional field is `none`. -/
def sampleMinimal : SongAnalysis :=
  SongAnalysis.mk none none none 200 44100 none none [] [] "x.mp3"
    "2025-02-03T04:05:06Z" "1.0.0"

/-- A subprocess runner whose child exits successfully. -/
def runExit0 : String → List String → String → Except String ProcessOutput :=
  fun _ _ _ => Except.ok (ProcessOutput.mk true "done" "")

/-- A subprocess runner whose child exits with a failure status. -/
def runExit1 : String → List String → String → Except String ProcessOutput :=
  fun _ _ _ => Except.ok (ProcessOutput.mk false "out" "err")

/-! ### Helper lemmas -/

/-- When every entry yielded by the directory iterator is `ok`, the scan
loop never returns an error, whatever the per-entry reads and parses
do. -/
theorem listLoop_ok_of_entries_ok (fs : Fs) (from_str : String → Option SongAnalysis) :
    ∀ (entries : List (Except String String)) (songs : List SongSummary),
      (∀ x ∈ entries, ∃ p, x = Except.ok p) →
      ∃ l, listLoop fs from_str entries songs = Except.ok l := by
  intro entries
  induction entries with
  | nil => exact fun songs _ => ⟨songs, rfl⟩
  | cons x rest ih =>
    intro songs h
    obtain ⟨p, hp⟩ := h x (List.mem_cons_self x rest)
    subst hp
    have hrest : ∀ y ∈ rest, ∃ q, y = Except.ok q :=
      fun y hy => h y (List.mem_cons_of_mem _ hy)
    cases hfe : fs.pathExists (pathJoin p "analysis.json") with
    | false =>
      simpa only [listLoop, hfe, Bool.false_eq_true, if_false] using ih _ hrest
    | true =>
      cases hrd : fs.readToString (pathJoin p "analysis.json") with
      | error e =>
        simpa only [listLoop, hfe, if_true, hrd] using ih _ hrest
      | ok content =>
        cases hfs : from_str content with
        | none =>
          simpa only [listLoop, hfe, if_true, hrd, hfs] using ih _ hrest
        | some analysis =>
          simpa only [listLoop, hfe, if_true, hrd, hfs] using ih _ hrest

/-- Every summary produced by the scan loop is either carried over from
the accumulator or assembled, field by field, from a successfully read
and parsed manifest. -/
theorem listLoop_mem_sound (fs : Fs) (from_str : String → Option SongAnalysis) :
    ∀ (entries : List (Except String String)) (songs : List SongSummary)
      (l : List SongSummary),
      listLoop fs from_str entries songs = Except.ok l →
      ∀ s ∈ l, s ∈ songs ∨ ∃ p content analysis,
        fs.readToString (pathJoin p "analysis.json") = Except.ok content ∧
        from_str content = some analysis ∧
        s = SongSummary.mk p analysis.title analysis.artist
              analysis.original_duration analysis.stems.length := by
  intro entries
  induction entries with
  | nil =>
    intro songs l hl s hs
    simp only [listLoop, Except.ok.injEq] at hl
    exact Or.inl (hl ▸ hs)
  | cons x rest ih =>
    intro songs l hl s hs
    cases x with
    | error e =>
      simp only [listLoop] at hl
      exact Except.noConfusion hl
    | ok p =>
      cases hfe : fs.pathExists (pathJoin p "analysis.json") with
      | false =>
        simp only [listLoop, hfe, Bool.false_eq_true, if_false] at hl
        exact ih _ _ hl s hs
      | true =>
        cases hrd : fs.readToString (pathJoin p "analysis.json") with
        | error e =>
          simp only [listLoop, hfe, if_true, hrd] at hl
          exact ih _ _ hl s hs
        | ok content =>
          cases hfs : from_str content with
          | none =>
            simp only [listLoop, hfe, if_true, hrd, hfs] at hl
            exact ih _ _ hl s hs
          | some analysis =>
            simp only [listLoop, hfe, if_true, hrd, hfs] at hl
            rcases ih _ _ hl s hs with hmem | hgood
            · rcases List.mem_append.mp hmem with hold | hnew
              · exact Or.inl hold
              · refine Or.inr ⟨p, content, analysis, hrd, hfs, ?_⟩
                simpa using hnew
            · exact Or.inr hgood

/-! ### Claims -/

/-- C3: for every path that does not exist on the filesystem,
`list_songs` returns `Ok` with an empty list, not an error. -/
theorem claim_C3_missing_dir (fs : Fs) (from_str : String → Option SongAnalysis)
    (dir : String) (h : fs.pathExists dir = false) :
    list_songs fs from_str dir = Except.ok [] := by
  simp [list_songs, h]

/-- Witness for C3 on a concrete filesystem with no existing paths. -/
theorem claim_C3_witness :
    list_songs fsAbsent (fun _ => none) "/nowhere" = Except.ok [] :=
  claim_C3_missing_dir fsAbsent (fun _ => none) "/nowhere" rfl

/-- C5: `process_song` runs the external tool with working directory
`output_dir`'s parent's parent, `unwrap_or`-falling back to the current
directory `.`; in particular `/a/output/song` gives `/a` and the
single-segment `song` gives `.`.  The working directory is observed by a
runner that reports the directory it was invoked with. -/
theorem claim_C5_project_root (audio_file : String) (separate_drums : Bool) :
    (∀ output_dir,
      process_song (fun _ _ cwd => Except.error cwd) audio_file output_dir separate_drums
        = Except.error
            ("Failed to start process: " ++ (((pathParent output_dir).bind pathParent).getD "."))) ∧
    projectRoot "/a/output/song" = "/a" ∧
    projectRoot "song" = "." := by
  refine ⟨fun output_dir => rfl, by decide, by decide⟩

/-- C6: `get_stem_path` returns the joined path exactly when it exists
on the live filesystem at call time, and otherwise fails with a
not-found error naming the resolved path; the result is a function of
`Fs.pathExists` alone, no manifest is consulted. -/
theorem claim_C6_stem_path (fs : Fs) (song_dir relative_path : String) :
    (fs.pathExists (pathJoin song_dir relative_path) = true →
      get_stem_path fs song_dir relative_path
        = Except.ok (pathJoin song_dir relative_path)) ∧
    (fs.pathExists (pathJoin song_dir relative_path) = false →
      get_stem_path fs song_dir relative_path
        = Except.error ("Stem file not found: " ++ pathJoin song_dir relative_path)) := by
  constructor
  · intro h; simp [get_stem_path, h]
  · intro h; simp [get_stem_path, h]

/-- Witness for C6: an existing stem resolves, and the same call fails
once the target no longer exists (here: a name that never existed). -/
theorem claim_C6_witness :
    get_stem_path fsTwoSongs "/music/good" "analysis.json"
      = Except.ok "/music/good/analysis.json" ∧
    get_stem_path fsTwoSongs "/music/good" "missing.wav"
      = Except.error ("Stem file not found: " ++ pathJoin "/music/good" "missing.wav") :=
  ⟨(claim_C6_stem_path fsTwoSongs "/music/good" "analysis.json").1 rfl,
   (claim_C6_stem_path fsTwoSongs "/music/good" "missing.wav").2 rfl⟩

/-- C10: `get_stem_path` performs no containment check: `Path::join`
replaces the base when its argument is absolute, so any existing
absolute path is returned as-is, regardless of the song directory. -/
theorem claim_C10_no_containment (fs : Fs) (song_dir p : String)
    (habs : pathIsAbsolute p = true) (hex : fs.pathExists p = true) :
    get_stem_path fs song_dir p = Except.ok p := by
  have hjoin : pathJoin song_dir p = p := by simp [pathJoin, habs]
  simp [get_stem_path, hjoin, hex]

/-- Witness for C10: `/music/bad` exists and is absolute, so resolving
it against the unrelated song directory `/music/good` escapes that
directory and succeeds. -/
theorem claim_C10_witness :
    get_stem_path fsTwoSongs "/music/good" "/music/bad" = Except.ok "/music/bad" :=
  claim_C10_no_containment fsTwoSongs "/music/good" "/music/bad" rfl rfl

/-- C9: the argument vector of the external invocation is
`run music-tutor convert <audio_file> -o <output_dir>` with `--drum-sep`
appended exactly when `separate_drums` is set; `process_song` passes
exactly this vector to the runner (observed by a runner that reports the
arguments it was invoked with). -/
theorem claim_C9_args (audio_file output_dir : String) :
    processArgs audio_file output_dir true
      = ["run", "music-tutor", "convert", audio_file, "-o", output_dir, "--drum-sep"] ∧
    processArgs audio_file output_dir false
      = ["run", "music-tutor", "convert", audio_file, "-o", output_dir] ∧
    ∀ separate_drums,
      process_song (fun _ args _ => Except.error (String.intercalate " " args))
          audio_file output_dir separate_drums
        = Except.error ("Failed to start process: "
            ++ String.intercalate " " (processArgs audio_file output_dir separate_drums)) := by
  exact ⟨rfl, rfl, fun _ => rfl⟩

/-- C4: when the runner reports a successfully exited child,
`process_song` returns `output_dir` unchanged; when the child exited
with a failure status, it fails with a message that is built from — and
hence contains as substrings — the trimmed stdout and trimmed stderr of
the child. -/
theorem claim_C4_exit_status
    (run : String → List String → String → Except String ProcessOutput)
    (audio_file output_dir : String) (separate_drums : Bool) (output : ProcessOutput)
    (h : run "uv" (processArgs audio_file output_dir separate_drums) (projectRoot output_dir)
          = Except.ok output) :
    (output.success = true →
      process_song run audio_file output_dir separate_drums = Except.ok output_dir) ∧
    (output.success = false →
      ∃ msg, process_song run audio_file output_dir separate_drums = Except.error msg ∧
        msg = "Processing failed:\n" ++ output.stdout.trim ++ "\n" ++ output.stderr.trim ∧
        List.IsInfix output.stdout.trim.data msg.data ∧
        List.IsInfix output.stderr.trim.data msg.data) := by
  constructor
  · intro hs
    simp [process_song, h, hs]
  · intro hs
    refine ⟨"Processing failed:\n" ++ output.stdout.trim ++ "\n" ++ output.stderr.trim,
      by simp [process_song, h, hs], rfl, ?_, ?_⟩
    · refine ⟨"Processing failed:\n".data, "\n".data ++ output.stderr.trim.data, ?_⟩
      simp [String.data_append, List.append_assoc]
    · refine ⟨("Processing failed:\n" ++ output.stdout.trim ++ "\n").data, [], ?_⟩
      simp [String.data_append, List.append_assoc]

/-- Witness for C4: one run with a zero exit status and one with a
non-zero exit status. -/
theorem claim_C4_witness :
    process_song runExit0 "song.mp3" "/a/output/song" false = Except.ok "/a/output/song" ∧
    (∃ msg, process_song runExit1 "song.mp3" "/a/output/song" false = Except.error msg ∧
      msg = "Processing failed:\n" ++ "out".trim ++ "\n" ++ "err".trim ∧
      List.IsInfix "out".trim.data msg.data ∧
      List.IsInfix "err".trim.data msg.data) :=
  ⟨(claim_C4_exit_status runExit0 "song.mp3" "/a/output/song" false
      (ProcessOutput.mk true "done" "") rfl).1 rfl,
   (claim_C4_exit_status runExit1 "song.mp3" "/a/output/song" false
      (ProcessOutput.mk false "out" "err") rfl).2 rfl⟩

/-- C1 counterexample: the claim that an error can only come from the
root listing itself — and never from an individual entry of the
iteration — is false: on a filesystem where opening the root directory
succeeds (`readDir` returns `ok`) but the entry iterator yields an
error, `list_songs` returns an error (the Rust source applies `?` to
each yielded entry). -/
theorem claim_C1_counterexample :
    ¬ (∀ (fs : Fs) (from_str : String → Option SongAnalysis) (dir : String)
          (entries : List (Except String String)),
        fs.readDir dir = Except.ok entries →
        ∃ l, list_songs fs from_str dir = Except.ok l) := by
  intro h
  obtain ⟨l, hl⟩ := h fsEntryErr (fun _ => none) "/music" [Except.error "interrupted"] rfl
  have : list_songs fsEntryErr (fun _ => none) "/music" = Except.error "interrupted" := rfl
  rw [this] at hl
  exact Except.noConfusion hl

/-- C1 (amended): `list_songs` propagates an error exactly for an I/O
failure while listing the root directory — either failing to open it or
an error yielded while iterating its entries; failures reading or
parsing an individual child's manifest never cause the call to return an
error. -/
theorem claim_C1_error_policy (fs : Fs) (from_str : String → Option SongAnalysis)
    (dir : String) :
    (∀ e, fs.pathExists dir = true → fs.readDir dir = Except.error e →
      list_songs fs from_str dir = Except.error e) ∧
    (∀ entries, fs.readDir dir = Except.ok entries →
      (∀ x ∈ entries, ∃ p, x = Except.ok p) →
      ∃ l, list_songs fs from_str dir = Except.ok l) := by
  constructor
  · intro e hex hrd
    simp [list_songs, hex, hrd]
  · intro entries hrd hall
    by_cases hex : fs.pathExists dir = true
    · have := listLoop_ok_of_entries_ok fs from_str entries [] hall
      simpa [list_songs, hex, hrd] using this
    · exact ⟨[], by simp [list_songs, Bool.eq_false_iff.mpr hex]⟩

/-- Witness for C1 (amended): a root directory that exists but cannot
be listed propagates exactly the listing error. -/
theorem claim_C1_witness :
    list_songs fsRootErr (fun _ => none) "/music" = Except.error "permission denied" :=
  (claim_C1_error_policy fsRootErr (fun _ => none) "/music").1 "permission denied" rfl rfl

/-- C2: on a root directory with one child whose manifest parses and
one child whose manifest file exists but cannot be read or parsed
(in either enumeration order), `list_songs` returns `Ok` with exactly
the valid child's summary; the corrupt child is silently skipped. -/
theorem claim_C2_corrupt_skipped (fs : Fs) (from_str : String → Option SongAnalysis)
    (dir good bad good_content : String) (analysis : SongAnalysis)
    (hex : fs.pathExists dir = true)
    (hrd : fs.readDir dir = Except.ok [Except.ok good, Except.ok bad] ∨
           fs.readDir dir = Except.ok [Except.ok bad, Except.ok good])
    (hgm : fs.pathExists (pathJoin good "analysis.json") = true)
    (hgr : fs.readToString (pathJoin good "analysis.json") = Except.ok good_content)
    (hgp : from_str good_content = some analysis)
    (hbm : fs.pathExists (pathJoin bad "analysis.json") = true)
    (hbc : (∃ e, fs.readToString (pathJoin bad "analysis.json") = Except.error e) ∨
           (∃ c, fs.readToString (pathJoin bad "analysis.json") = Except.ok c ∧
              from_str c = none)) :
    list_songs fs from_str dir = Except.ok
      [SongSummary.mk good analysis.title analysis.artist
        analysis.original_duration analysis.stems.length] := by
  rcases hbc with ⟨e, hbe⟩ | ⟨c, hbr, hbp⟩
  · rcases hrd with hrd | hrd <;>
      simp [list_songs, listLoop, hex, hrd, hgm, hgr, hgp, hbm, hbe]
  · rcases hrd with hrd | hrd <;>
      simp [list_songs, listLoop, hex, hrd, hgm, hgr, hgp, hbm, hbr, hbp]

/-- Witness for C2 on a concrete two-song filesystem. -/
theorem claim_C2_witness :
    list_songs fsTwoSongs parseFixture "/music" = Except.ok
      [SongSummary.mk "/music/good" sampleAnalysis.title sampleAnalysis.artist
        sampleAnalysis.original_duration sampleAnalysis.stems.length] :=
  claim_C2_corrupt_skipped fsTwoSongs parseFixture "/music" "/music/good" "/music/bad"
    "good-manifest" sampleAnalysis rfl (Or.inl rfl) rfl rfl rfl rfl
    (Or.inr ⟨"bad-manifest", rfl, rfl⟩)

/-- C8: every summary produced by a `list_songs` scan is assembled from
its song's successfully parsed manifest: `stem_count` is the length of
the entry list of the `stems` mapping (the number of its keys), the
duration is the manifest's `original_duration`, and title and artist are
copied unchanged, present or absent. -/
theorem claim_C8_summary_fields (fs : Fs) (from_str : String → Option SongAnalysis)
    (dir : String) (l : List SongSummary)
    (hl : list_songs fs from_str dir = Except.ok l) :
    ∀ s ∈ l, ∃ p content analysis,
      fs.readToString (pathJoin p "analysis.json") = Except.ok content ∧
      from_str content = some analysis ∧
      s = SongSummary.mk p analysis.title analysis.artist
            analysis.original_duration analysis.stems.length := by
  intro s hs
  by_cases hex : fs.pathExists dir = true
  · cases hrd : fs.readDir dir with
    | error e =>
      rw [list_songs, if_pos hex, hrd] at hl
      exact Except.noConfusion hl
    | ok entries =>
      rw [list_songs, if_pos hex, hrd] at hl
      rcases listLoop_mem_sound fs from_str entries [] l hl s hs with hmem | hgood
      · exact absurd hmem (List.not_mem_nil s)
      · exact hgood
  · rw [list_songs, if_neg hex] at hl
    obtain rfl : [] = l := Except.ok.inj hl
    exact absurd hs (List.not_mem_nil s)

/-- Witness for C8 on the concrete two-song filesystem: the single
produced summary carries the sample manifest's fields. -/
theorem claim_C8_witness :
    ∃ p content analysis,
      fsTwoSongs.readToString (pathJoin p "analysis.json") = Except.ok content ∧
      parseFixture content = some analysis ∧
      SongSummary.mk "/music/good" (some "Song") none 180 1
        = SongSummary.mk p analysis.title analysis.artist
            analysis.original_duration analysis.stems.length :=
  claim_C8_summary_fields fsTwoSongs parseFixture "/music"
    [SongSummary.mk "/music/good" (some "Song") none 180 1] rfl
    (SongSummary.mk "/music/good" (some "Song") none 180 1) (List.mem_singleton.mpr rfl)

/-! ### Round-trip lemmas for the serde embedding -/

/-- Integer encode/decode round trip. -/
theorem decodeInt_num (n : Int) : decodeInt (Json.num (n : Rat)) = some n := by
  simp [decodeInt, Rat.den_intCast, Rat.num_intCast]

/-- Pair encode/decode round trip. -/
theorem decodePairII_encPairII (p : Int × Int) : decodePairII (encPairII p) = some p := by
  obtain ⟨x, y⟩ := p
  simp [encPairII, decodePairII, encInt, decodeInt_num]

/-- Optional string field round trip. -/
theorem decodeOpt_encOpt_str (o : Option String) :
    decodeOpt decodeStr (some (encOpt Json.str o)) = some o := by
  cases o <;> rfl

/-- Optional number field round trip. -/
theorem decodeOpt_encOpt_num (o : Option Rat) :
    decodeOpt decodeRat (some (encOpt Json.num o)) = some o := by
  cases o <;> rfl

/-- Optional integer field round trip. -/
theorem decodeOpt_encOpt_int (o : Option Int) :
    decodeOpt decodeInt (some (encOpt encInt o)) = some o := by
  cases o with
  | none => rfl
  | some n => simp [encOpt, encInt, decodeOpt, decodeInt_num]

/-- Optional integer-pair field round trip. -/
theorem decodeOpt_encOpt_pair (o : Option (Int × Int)) :
    decodeOpt decodePairII (some (encOpt encPairII o)) = some o := by
  cases o with
  | none => rfl
  | some p =>
    obtain ⟨x, y⟩ := p
    simp [encOpt, encPairII, decodeOpt, decodePairII, encInt, decodeInt_num]

/-- Object entry lists round-trip under any element round trip. -/
theorem decodeEntries_map (dec : Json → Option α) (enc : α → Json)
    (h : ∀ x, dec (enc x) = some x) :
    ∀ ps : List (String × α),
      decodeEntries dec (ps.map (fun kv => (kv.1, enc kv.2))) = some ps := by
  intro ps
  induction ps with
  | nil => rfl
  | cons kv rest ih =>
    obtain ⟨k, v⟩ := kv
    simp [decodeEntries, h v, ih]

/-- Arrays round-trip under any element round trip. -/
theorem decodeList_map (dec : Json → Option α) (enc : α → Json)
    (h : ∀ x, dec (enc x) = some x) :
    ∀ xs : List α, decodeList dec (xs.map enc) = some xs := by
  intro xs
  induction xs with
  | nil => rfl
  | cons x rest ih => simp [decodeList, h x, ih]

/-- `StemInfo` serialize/deserialize round trip. -/
theorem stemInfo_fromJson_toJson (s : StemInfo) : StemInfo.fromJson s.toJson = some s := by
  obtain ⟨n, ps, hn, pk⟩ := s
  simp [StemInfo.toJson, StemInfo.fromJson, jget, decodeStr, decodeBool, decodeRat,
    decodeObj, decodeEntries_map decodeStr Json.str (fun _ => rfl)]

/-- `BeatEvent` serialize/deserialize round trip. -/
theorem beatEvent_fromJson_toJson (b : BeatEvent) : BeatEvent.fromJson b.toJson = some b := by
  obtain ⟨t, ty, bim⟩ := b
  simp [BeatEvent.toJson, BeatEvent.fromJson, jget, decodeRat, decodeStr,
    decodeOpt_encOpt_int]

/-- `SongAnalysis` serialize/deserialize round trip: re-parsing the
serialization of any parsed value gives the value back, every field —
present or absent — preserved. -/
theorem songAnalysis_fromJson_toJson (a : SongAnalysis) :
    SongAnalysis.fromJson a.toJson = some a := by
  obtain ⟨t, ar, al, od, sr, tb, ts, st, be, sf, pd, cv⟩ := a
  simp [SongAnalysis.toJson, SongAnalysis.fromJson, jget, decodeRat, decodeStr,
    encInt, decodeInt_num, decodeOpt_encOpt_str, decodeOpt_encOpt_num, decodeOpt_encOpt_pair,
    decodeObj, decodeArr,
    decodeEntries_map StemInfo.fromJson StemInfo.toJson stemInfo_fromJson_toJson,
    decodeList_map BeatEvent.fromJson BeatEvent.toJson beatEvent_fromJson_toJson]

/-- C7: for every manifest document that parses to a `SongAnalysis`,
serializing that value and parsing again yields a value equal to the
first parse — every field is preserved, including the absence of each
optional field (`title`, `artist`, `album`, `tempoBpm`,
`timeSignature`, `beatInMeasure`). -/
theorem claim_C7_roundtrip (j : Json) (a : SongAnalysis)
    (_h : SongAnalysis.fromJson j = some a) :
    SongAnalysis.fromJson (SongAnalysis.toJson a) = some a :=
  songAnalysis_fromJson_toJson a

/-- Witness for C7 on a concrete manifest document with every optional
field absent: the first parse succeeds and the round trip reproduces
it. -/
theorem claim_C7_witness :
    SongAnalysis.fromJson sampleManifest = some sampleMinimal ∧
    SongAnalysis.fromJson (SongAnalysis.toJson sampleMinimal) = some sampleMinimal :=
  ⟨by decide, claim_C7_roundtrip sampleManifest sampleMinimal (by decide)⟩

end MusicTutor
